import Mathlib

/-!
Verification of the maubot JIRA plugin (src/jira/__init__.py).

The development shallowly embeds the plugin's message-scanning and
issue-resolution pipeline: issue-key extraction (re.findall of
a word-bounded uppercase-hyphen-digits pattern), the URL-context filter
(which removes elements of the match list in place while iterating over it),
first-occurrence deduplication, the per-issue cooldown ledger, the project
directory refresh, reply formatting, and the early sender checks.
Message text is modelled as a list of characters; word characters and case
are ASCII, matching the ASCII inputs the pattern can match.  Network calls
are modelled by explicit outcome values (HTTP status plus parsed body, or a
transport error) and by a fetch oracle passed to the pipeline.
-/

/-- Word character for the word-boundary test of the regexes
(ASCII letters, digits, underscore). -/
def isWordChar (c : Char) : Bool := c.isAlphanum || c == '_'

/-- Match of the issue-key pattern at the head of the text: one or more
uppercase letters, a hyphen, one or more digits, followed by a word
boundary.  Returns the matched key.  Models one anchored attempt of
the pattern of the findall call on line 82 of the source; the leading
word boundary is checked by the caller. -/
def matchIssue (l : List Char) : Option String :=
  let ups := l.takeWhile Char.isUpper
  if ups.isEmpty then none
  else
    match l.drop ups.length with
    | '-' :: rest =>
      let ds := rest.takeWhile Char.isDigit
      if ds.isEmpty then none
      else
        match rest.drop ds.length with
        | [] => some (String.mk (ups ++ '-' :: ds))
        | c :: _ =>
          if isWordChar c then none else some (String.mk (ups ++ '-' :: ds))
    | _ => none

/-- All matches of the word-bounded issue-key pattern in the text, in order
of occurrence: the findall on line 82 of the source.  The Boolean argument
records whether the previous character is a word character (the state of
the leading word-boundary test).  Because no match of this pattern can
begin strictly inside another match, scanning one character at a time
yields exactly the non-overlapping findall matches. -/
def scanIssues : Bool → List Char → List String
  | _, [] => []
  | prevWord, c :: rest =>
    match (if prevWord then none else matchIssue (c :: rest)) with
    | some key => key :: scanIssues (isWordChar c) rest
    | none => scanIssues (isWordChar c) rest

/-- Whether the text contains an http(s):// substring: the search for
the URL scheme pattern on line 89 of the source. -/
def containsHttp : List Char → Bool
  | [] => false
  | c :: rest =>
    List.isPrefixOf ("http://".data) (c :: rest) ||
    List.isPrefixOf ("https://".data) (c :: rest) ||
    containsHttp rest

/-- The issue occurs at the head of the text and is followed by a word
boundary (next character not a word character, or end of text). -/
def issueAtBoundary (issue : List Char) (l : List Char) : Bool :=
  List.isPrefixOf issue l &&
    (match l.drop issue.length with
     | [] => true
     | c :: _ => !isWordChar c)

/-- Some run of zero or more non-whitespace characters at the head of the
text is immediately followed by the issue (with a trailing word boundary):
the non-whitespace-run part of the URL regex on line 92 of the source. -/
def runThenIssue (issue : List Char) : List Char → Bool
  | [] => issueAtBoundary issue []
  | c :: rest =>
    issueAtBoundary issue (c :: rest) || (!c.isWhitespace && runThenIssue issue rest)

/-- Search of the whole text for an http(s):// scheme followed by a
non-whitespace run ending in the issue key with a trailing word boundary:
the per-issue URL regex search on line 92 of the source. -/
def urlIssueSearch : List Char → List Char → Bool
  | [], _ => false
  | c :: rest, issue =>
    (List.isPrefixOf ("http://".data) (c :: rest) &&
       runThenIssue issue ((c :: rest).drop 7)) ||
    (List.isPrefixOf ("https://".data) (c :: rest) &&
       runThenIssue issue ((c :: rest).drop 8)) ||
    urlIssueSearch rest issue

/-- The loop of lines 91 to 93 of the source: iterate over the match list
by index while removing, in place, each candidate whose URL regex search
succeeds.  Removing an element shortens the list under the iterator, so
the element that follows a removed one is never examined, exactly as in
the Python loop.  The fuel argument is the length of the initial list,
an upper bound on the number of iterations. -/
def urlFilterGo (text : List Char) : Nat → Nat → List String → List String
  | 0, _, l => l
  | fuel + 1, i, l =>
    if h : i < l.length then
      if urlIssueSearch text (l.get ⟨i, h⟩).data then
        urlFilterGo text fuel (i + 1) (l.erase (l.get ⟨i, h⟩))
      else
        urlFilterGo text fuel (i + 1) l
    else l

/-- URL-context filter applied to the match list (lines 88 to 93). -/
def urlFilter (text : List Char) (l : List String) : List String :=
  urlFilterGo text l.length 0 l

/-- First-occurrence deduplication with an accumulator of already seen
keys: dict.fromkeys on line 99 of the source. -/
def dedupFirstAux (seen : List String) : List String → List String
  | [] => []
  | x :: xs =>
    if seen.contains x then dedupFirstAux seen xs
    else x :: dedupFirstAux (x :: seen) xs

/-- Remove duplicates from the match list, keeping the first occurrence of
each key and preserving order (line 99 of the source). -/
def dedupFirst (l : List String) : List String := dedupFirstAux [] l

/-- The Issue Extractor: lines 82 to 104 of the source.  Finds all
word-bounded issue-key matches, applies the URL-context filter when
the respond-to-URLs flag is false and the text contains an http(s)://
substring, removes duplicates keeping first occurrences, and truncates
to the configured maximum number of issues. -/
def extractIssues (respondToUrls : Bool) (maxIssues : Nat) (text : List Char) :
    List String :=
  let issueMatches := scanIssues false text
  if issueMatches.isEmpty then []
  else
    let filtered :=
      if !respondToUrls && containsHttp text then urlFilter text issueMatches
      else issueMatches
    if filtered.isEmpty then []
    else
      let uniq := dedupFirst filtered
      if maxIssues < uniq.length then uniq.take maxIssues else uniq

/-- Index of the first occurrence of a pattern as a contiguous substring
of the text (used to state first-occurrence order in the text). -/
def firstOccIdx : List Char → List Char → Option Nat
  | [], pat => if pat.isEmpty then some 0 else none
  | c :: rest, pat =>
    if List.isPrefixOf pat (c :: rest) then some 0
    else
      match firstOccIdx rest pat with
      | some n => some (n + 1)
      | none => none

/-- Project prefix of an issue key: the part before the first hyphen,
issue_key.split on the hyphen, first component (line 109 of the source). -/
def projectKey (k : String) : String :=
  String.mk (k.data.takeWhile (fun c => !(c == '-')))

/-- Drop from the cooldown ledger every entry whose age strictly exceeds
the cooldown window: lines 227 to 233 of the source. -/
def purgeExpired (now : Int) (window : Nat) (ledger : List (String × Int)) :
    List (String × Int) :=
  ledger.filter (fun kv => !(now - kv.2 > (window : Int)))

/-- The cooldown check of lines 221 to 241 of the source: purge expired
entries, then report true (suppress) if the key is still present;
otherwise record the key with the current time and report false. -/
def checkAndMark (key : String) (now : Int) (window : Nat)
    (ledger : List (String × Int)) : Bool × List (String × Int) :=
  let purged := purgeExpired now window ledger
  if purged.any (fun kv => kv.1 == key) then (true, purged)
  else (false, purged ++ [(key, now)])

/-- Configuration snapshot of the plugin (class Config of the source). -/
structure PluginConfig where
  jiraUrl : String
  restApiSuffix : String
  ignoredUsers : List String
  issueCooldown : Nat
  maxIssuesPerMessage : Nat
  includeUrl : Bool
  respondToUrls : Bool

/-- Outcome of the HTTP GET for a single issue: a response with a status
and the parsed summary field (none when the body cannot be parsed or
lacks the field, which raises and is caught), or a transport error. -/
inductive HttpOutcome where
  | ok (status : Nat) (summary : Option String)
  | netError

/-- Everything of the base URL up to and including the last slash of its
path component. -/
def dropLastSegment (path : List Char) : List Char :=
  (path.reverse.dropWhile (fun c => !(c == '/'))).reverse

/-- Split an absolute URL at its scheme separator, returning the scheme
and the remainder. -/
def schemeSplit : List Char → Option (List Char × List Char)
  | [] => none
  | c :: rest =>
    if List.isPrefixOf ("://".data) (c :: rest) then some ([], (c :: rest).drop 3)
    else
      match schemeSplit rest with
      | some p => some (c :: p.1, p.2)
      | none => none

/-- Models urllib.parse.urljoin for the shapes this plugin uses: an
absolute base URL joined with a plain relative path replaces the part of
the base after the last slash of its path; a base without a path gets a
slash inserted.  A base without a scheme yields the relative part. -/
def urljoin (base rel : String) : String :=
  match schemeSplit base.data with
  | none => rel
  | some p =>
    let auth := p.2.takeWhile (fun c => !(c == '/'))
    let path := p.2.drop auth.length
    if path.isEmpty then String.mk (p.1 ++ ("://".data) ++ auth ++ '/' :: rel.data)
    else String.mk (p.1 ++ ("://".data) ++ auth ++ dropLastSegment path ++ rel.data)

/-- The reply line for one resolved issue: lines 146 to 150 of the source. -/
def issueLine (cfg : PluginConfig) (key title : String) : String :=
  if cfg.includeUrl then
    "[" ++ key ++ "](" ++ urljoin cfg.jiraUrl ("browse/" ++ key) ++ "): " ++ title
  else key ++ ": " ++ title

/-- The single-issue lookup of lines 134 to 159 of the source, as a
function of the HTTP outcome: on status 200 with a parseable summary,
the formatted line; on any other status, on a parse failure, or on a
transport exception, none (the failure is only logged). -/
def fetchIssueInfo (cfg : PluginConfig) (key : String) (outcome : HttpOutcome) :
    Option String :=
  match outcome with
  | HttpOutcome.netError => none
  | HttpOutcome.ok status summary =>
    if status = 200 then
      match summary with
      | none => none
      | some title => some (issueLine cfg key title)
    else none

/-- Join reply lines with newlines (line 131 of the source). -/
def joinLines : List String → String
  | [] => ""
  | [x] => x
  | x :: y :: rest => x ++ "\n" ++ joinLines (y :: rest)

/-- Whether the lowercased message body starts with the off-topic marker
(line 126 of the source). -/
def offMarker (body : String) : Bool :=
  List.isPrefixOf ("[off]".data) (body.data.map Char.toLower)

/-- Reply assembly of lines 124 to 132 of the source: no reply when the
response buffer is empty; otherwise the lines, each prefixed with the
off-topic marker when the original body starts with it, joined with
newlines. -/
def formatReply (body : String) (responses : List String) : Option String :=
  if responses.isEmpty then none
  else if offMarker body then
    some (joinLines (responses.map (fun r => "[off] " ++ r)))
  else some (joinLines responses)

/-- The per-candidate loop of lines 108 to 122 of the source: skip keys
whose project prefix is not in the project directory, skip keys on
cooldown (the cooldown check also records the key), fetch the rest
through the fetch oracle, and collect the successful lines.  Returns the
response buffer and the final cooldown ledger. -/
def processIssueList (projects : List String) (window : Nat)
    (fetch : String → Option String) (now : Int) :
    List String → List (String × Int) → List String × List (String × Int)
  | [], ledger => ([], ledger)
  | k :: rest, ledger =>
    if projects.contains (projectKey k) then
      let r := checkAndMark k now window ledger
      if r.1 then processIssueList projects window fetch now rest r.2
      else
        match fetch k with
        | some info =>
          let res := processIssueList projects window fetch now rest r.2
          (info :: res.1, res.2)
        | none => processIssueList projects window fetch now rest r.2
    else processIssueList projects window fetch now rest ledger

/-- The message pipeline of lines 77 to 132 of the source: extract
candidate keys, run the per-candidate loop, and assemble the reply
(none when nothing is to be sent). -/
def processMessageForIssues (projects : List String) (cfg : PluginConfig)
    (fetch : String → Option String) (now : Int) (ledger : List (String × Int))
    (body : String) : Option String × List (String × Int) :=
  let issues := extractIssues cfg.respondToUrls cfg.maxIssuesPerMessage body.data
  let res := processIssueList projects cfg.issueCooldown fetch now issues ledger
  (formatReply body res.1, res.2)

/-- Python str.strip applied to an ignored-users entry (line 214). -/
def pyStrip (s : String) : String :=
  String.mk (((s.data.dropWhile Char.isWhitespace).reverse.dropWhile
    Char.isWhitespace).reverse)

/-- Local part of a Matrix user id: everything before the first colon,
with leading at-signs removed (line 217 of the source). -/
def localpart (userId : String) : String :=
  String.mk ((userId.data.takeWhile (fun c => !(c == ':'))).dropWhile
    (fun c => c == '@'))

/-- The ignored-user test of lines 208 to 219 of the source: false when
the configured list is empty; otherwise whether the sender's local part
is among the trimmed entries (case-sensitive). -/
def isIgnoredUser (ignoredUsers : List String) (userId : String) : Bool :=
  if ignoredUsers.isEmpty then false
  else (ignoredUsers.map pyStrip).contains (localpart userId)

/-- Message type of an incoming room message. -/
inductive MsgType where
  | text
  | other
deriving DecidableEq

/-- An incoming message event: type, sender identity, body. -/
structure MessageEvt where
  msgtype : MsgType
  sender : String
  body : String

/-- The message handler of lines 61 to 75 of the source: reject messages
that are not plain text, messages from ignored senders, and the plugin's
own messages; process everything else through the pipeline. -/
def onMessage (projects : List String) (cfg : PluginConfig) (ownId : String)
    (fetch : String → Option String) (now : Int) (ledger : List (String × Int))
    (evt : MessageEvt) : Option String × List (String × Int) :=
  if evt.msgtype ≠ MsgType.text then (none, ledger)
  else if isIgnoredUser cfg.ignoredUsers evt.sender then (none, ledger)
  else if evt.sender = ownId then (none, ledger)
  else processMessageForIssues projects cfg fetch now ledger evt.body

/-- Outcome of the HTTP GET for the project list: a response with a
status and the parsed list of project keys (none when the body is
malformed, which raises and is caught), or a transport error. -/
inductive ProjectsOutcome where
  | ok (status : Nat) (projectKeys : Option (List String))
  | netError

/-- The project refresh of lines 179 to 201 of the source, as a function
of the HTTP outcome: on status 200 with a parseable body, replace the
project list wholesale and report success; on any other status, on a
malformed body, or on a transport exception, keep the old list and
report failure. -/
def updateProjectsState (old : List String) (outcome : ProjectsOutcome) :
    Bool × List String :=
  match outcome with
  | ProjectsOutcome.netError => (false, old)
  | ProjectsOutcome.ok status body =>
    if status = 200 then
      match body with
      | some keys => (true, keys)
      | none => (false, old)
    else (false, old)

/-- The administrator update command of lines 166 to 177 of the source:
run the refresh and reply with the new project count on success or a
failure notice otherwise.  Returns the resulting project list and the
reply text. -/
def updateProjectsReply (old : List String) (outcome : ProjectsOutcome) :
    List String × String :=
  let r := updateProjectsState old outcome
  (r.2,
   if r.1 then
     "Successfully updated projects list. Found " ++ toString r.2.length ++
       " projects."
   else "Failed to update projects list. Check logs for details.")

/-- A configuration used by the concrete witnesses. -/
def demoConfig : PluginConfig :=
  { jiraUrl := "https://tracker/"
    restApiSuffix := "rest/api/2"
    ignoredUsers := ["alice"]
    issueCooldown := 60
    maxIssuesPerMessage := 5
    includeUrl := false
    respondToUrls := false }

/-- The demo configuration with markdown links enabled. -/
def demoConfigUrl : PluginConfig := { demoConfig with includeUrl := true }

/-- A fetch oracle that succeeds only on one key. -/
def oneKeyFetch : String → Option String :=
  fun k => if k = "CD-2" then some ("CD-2: T") else none

/-- A fetch oracle that always fails. -/
def noFetch : String → Option String := fun _ => none

/-- Membership in the purged ledger means membership in the original
ledger with age at most the window. -/
theorem mem_purgeExpired (now : Int) (w : Nat) (ledger : List (String × Int))
    (p : String × Int) (hp : p ∈ purgeExpired now w ledger) :
    p ∈ ledger ∧ now - p.2 ≤ (w : Int) := by
  have h := List.mem_filter.mp hp
  refine ⟨h.1, ?_⟩
  have h2 := h.2
  simp only [Bool.not_eq_true', decide_eq_false_iff_not, not_lt] at h2
  exact h2

/-- The ledger after a cooldown check is the purged ledger, possibly with
the new entry appended. -/
theorem checkAndMark_snd_cases (k : String) (now : Int) (w : Nat)
    (ledger : List (String × Int)) :
    (checkAndMark k now w ledger).2 = purgeExpired now w ledger ∨
    (checkAndMark k now w ledger).2 = purgeExpired now w ledger ++ [(k, now)] := by
  simp only [checkAndMark]
  split
  · exact Or.inl rfl
  · exact Or.inr rfl

/-- C2.  The claim states that a second mention after exactly the window
(t1 - t0 = w, an instance of t1 - t0 ≥ w) proceeds; the code purges only
entries strictly older than the window, so the entry recorded at t0
still suppresses the mention at t1 = t0 + w: the second call returns
true, not false. -/
theorem checkAndMark_boundary_cex :
    (checkAndMark "AB-1" 10 10 ((checkAndMark "AB-1" 0 10 []).2)).1 = true := by
  decide

/-- C2 (amended).  From an empty ledger, the first call proceeds and
records t0; a second call at t1 is suppressed when t1 - t0 is at most
the window and proceeds (recording t1, the stale entry being purged)
when t1 - t0 strictly exceeds the window. -/
theorem checkAndMark_cooldown (K : String) (w : Nat) (t0 t1 : Int)
    (_h01 : t0 < t1) :
    (checkAndMark K t0 w []).1 = false ∧
    (checkAndMark K t0 w []).2 = [(K, t0)] ∧
    (t1 - t0 ≤ (w : Int) → checkAndMark K t1 w [(K, t0)] = (true, [(K, t0)])) ∧
    ((w : Int) < t1 - t0 → checkAndMark K t1 w [(K, t0)] = (false, [(K, t1)])) := by
  refine ⟨by simp [checkAndMark, purgeExpired], by simp [checkAndMark, purgeExpired],
    ?_, ?_⟩
  · intro h
    have hkeep : ¬ (t1 - t0 > (w : Int)) := by omega
    simp [checkAndMark, purgeExpired, hkeep]
  · intro h
    have hkeep : t1 - t0 > (w : Int) := by omega
    simp [checkAndMark, purgeExpired, hkeep]

/-- Witness for C2 (amended) at K = AB-1, w = 10, t0 = 0, t1 = 5. -/
theorem checkAndMark_cooldown_witness :
    (checkAndMark "AB-1" 0 10 []).1 = false ∧
    (checkAndMark "AB-1" 0 10 []).2 = [("AB-1", 0)] ∧
    ((5 : Int) - 0 ≤ ((10 : Nat) : Int) →
      checkAndMark "AB-1" 5 10 [("AB-1", 0)] = (true, [("AB-1", 0)])) ∧
    (((10 : Nat) : Int) < (5 : Int) - 0 →
      checkAndMark "AB-1" 5 10 [("AB-1", 0)] = (false, [("AB-1", 5)])) :=
  checkAndMark_cooldown "AB-1" 10 0 5 (by decide)

/-- C9.  After any cooldown check at time now with window w, every ledger
entry has age at most w; an entry whose age exceeds w for the checked key
never suppresses (the call returns false); and the resulting ledger is at
most one entry longer than the purged ledger. -/
theorem cooldown_ledger_fresh (k : String) (now : Int) (w : Nat)
    (ledger : List (String × Int)) :
    (∀ p ∈ (checkAndMark k now w ledger).2, now - p.2 ≤ (w : Int)) ∧
    ((∀ p ∈ ledger, p.1 = k → (w : Int) < now - p.2) →
      (checkAndMark k now w ledger).1 = false) ∧
    (checkAndMark k now w ledger).2.length ≤ (purgeExpired now w ledger).length + 1 := by
  refine ⟨?_, ?_, ?_⟩
  · intro p hp
    rcases checkAndMark_snd_cases k now w ledger with h | h
    · rw [h] at hp
      exact (mem_purgeExpired now w ledger p hp).2
    · rw [h] at hp
      rcases List.mem_append.mp hp with h2 | h2
      · exact (mem_purgeExpired now w ledger p h2).2
      · have h3 : p = (k, now) := List.mem_singleton.mp h2
        rw [h3]
        simp
  · intro hstale
    have hany : ((purgeExpired now w ledger).any (fun kv => kv.1 == k)) = false := by
      rw [List.any_eq_false]
      intro p hp
      have h := mem_purgeExpired now w ledger p hp
      simp only [beq_iff_eq]
      intro he
      exact absurd h.2 (by have h4 := hstale p h.1 he; omega)
    simp [checkAndMark, hany]
  · rcases checkAndMark_snd_cases k now w ledger with h | h
    · rw [h]
      exact Nat.le_succ _
    · rw [h]
      simp

/-- Witness for C9 at k = AB-1, now = 5, w = 2, with a stale ledger
entry of age 5. -/
theorem cooldown_ledger_fresh_witness :
    (∀ p ∈ (checkAndMark "AB-1" 5 2 [("AB-1", 0)]).2, (5 : Int) - p.2 ≤ ((2 : Nat) : Int)) ∧
    (checkAndMark "AB-1" 5 2 [("AB-1", 0)]).1 = false ∧
    (checkAndMark "AB-1" 5 2 [("AB-1", 0)]).2.length ≤
      (purgeExpired 5 2 [("AB-1", 0)]).length + 1 :=
  ⟨(cooldown_ledger_fresh "AB-1" 5 2 [("AB-1", 0)]).1,
   (cooldown_ledger_fresh "AB-1" 5 2 [("AB-1", 0)]).2.1 (by decide),
   (cooldown_ledger_fresh "AB-1" 5 2 [("AB-1", 0)]).2.2⟩

/-- C10.  A candidate that passes the project and cooldown checks is
recorded in the ledger before the fetch; when the fetch fails, the reply
buffer stays empty but the recorded entry remains, so a second mention
within the window is suppressed. -/
theorem ledger_not_rolled_back (projects : List String) (w : Nat)
    (fetch : String → Option String) (now t1 : Int) (k : String)
    (hk : projects.contains (projectKey k) = true) (hf : fetch k = none)
    (ht : t1 - now ≤ (w : Int)) :
    processIssueList projects w fetch now [k] [] = ([], [(k, now)]) ∧
    (checkAndMark k t1 w [(k, now)]).1 = true := by
  constructor
  · have hcm : checkAndMark k now w [] = (false, [(k, now)]) := by
      simp [checkAndMark, purgeExpired]
    have hkm : projectKey k ∈ projects := by simpa using hk
    simp [processIssueList, hk, hkm, hcm, hf]
  · have hkeep : ¬ (t1 - now > (w : Int)) := by omega
    simp [checkAndMark, purgeExpired, hkeep]

/-- Witness for C10 with a failing fetch and a second mention after 30
of 60 seconds. -/
theorem ledger_not_rolled_back_witness :
    processIssueList ["AB"] 60 noFetch 0 ["AB-1"] [] = ([], [("AB-1", 0)]) ∧
    (checkAndMark "AB-1" 30 60 [("AB-1", 0)]).1 = true :=
  ledger_not_rolled_back ["AB"] 60 noFetch 0 30 "AB-1" (by decide) (by decide)
    (by decide)

/-- A key whose URL search fails is never removed by the in-place URL
filter loop, whatever the iteration index and fuel. -/
theorem mem_urlFilterGo (text : List Char) (k : String)
    (hk : urlIssueSearch text k.data = false) :
    ∀ (fuel i : Nat) (l : List String), k ∈ l → k ∈ urlFilterGo text fuel i l := by
  intro fuel
  induction fuel with
  | zero =>
    intro i l hm
    simpa [urlFilterGo] using hm
  | succ n ih =>
    intro i l hm
    simp only [urlFilterGo]
    split
    · rename_i hlt
      split
      · rename_i hurl
        apply ih
        refine (List.mem_erase_of_ne ?_).mpr hm
        intro heq
        rw [← heq] at hurl
        rw [hk] at hurl
        simp at hurl
      · exact ih _ _ hm
    · exact hm

/-- Keys produced by the deduplication pass are not among the already
seen keys. -/
theorem dedupFirstAux_not_mem_seen :
    ∀ (l seen : List String) (x : String), x ∈ dedupFirstAux seen l → x ∉ seen := by
  intro l
  induction l with
  | nil =>
    intro seen x hx
    simp [dedupFirstAux] at hx
  | cons y ys ih =>
    intro seen x hx
    simp only [dedupFirstAux] at hx
    split at hx
    · exact ih seen x hx
    · rename_i hcon
      rcases List.mem_cons.mp hx with h | h
      · subst h
        intro hmem
        exact hcon (by simpa using hmem)
      · intro hmem
        exact (ih (y :: seen) x h) (List.mem_cons_of_mem _ hmem)

/-- The deduplication pass produces a list without duplicates. -/
theorem dedupFirstAux_nodup : ∀ (l seen : List String), (dedupFirstAux seen l).Nodup := by
  intro l
  induction l with
  | nil =>
    intro seen
    simp [dedupFirstAux]
  | cons y ys ih =>
    intro seen
    simp only [dedupFirstAux]
    split
    · exact ih seen
    · refine List.nodup_cons.mpr ⟨?_, ih (y :: seen)⟩
      intro hy
      exact dedupFirstAux_not_mem_seen ys (y :: seen) y hy (List.mem_cons_self y seen)

/-- First-occurrence deduplication yields a duplicate-free list. -/
theorem dedupFirst_nodup (l : List String) : (dedupFirst l).Nodup :=
  dedupFirstAux_nodup l []

/-- C1.  The claim states that every candidate immediately preceded by an
http(s) non-whitespace run is dropped.  In the text
https://x/FOO-1 https://y/BAR-2 the candidate BAR-2 satisfies that URL
criterion, yet the extractor retains it: removing FOO-1 from the match
list while iterating over it skips the next element. -/
theorem url_filter_drop_cex :
    urlIssueSearch ("https://x/FOO-1 https://y/BAR-2".data) ("BAR-2".data) = true ∧
    extractIssues false 10 ("https://x/FOO-1 https://y/BAR-2".data) = ["BAR-2"] := by
  decide

/-- C1 (amended).  With the respond-to-URLs flag false, every candidate
whose URL search fails is retained by the URL filter; a URL-embedded
candidate is usually dropped but may survive when it immediately follows
a removed element of the match list.  For the input
see https://x/FOO-1 and BAR-2, FOO-1 is filtered out and BAR-2 is
retained. -/
theorem url_filter_retains_nonurl (text : List Char) (k : String)
    (l : List String) (hk : urlIssueSearch text k.data = false) (hmem : k ∈ l) :
    k ∈ urlFilter text l ∧
    extractIssues false 10 ("see https://x/FOO-1 and BAR-2".data) = ["BAR-2"] :=
  ⟨mem_urlFilterGo text k hk l.length 0 l hmem, by decide⟩

/-- Witness for C1 (amended) on the spec's example text. -/
theorem url_filter_retains_nonurl_witness :
    "BAR-2" ∈ urlFilter ("see https://x/FOO-1 and BAR-2".data) ["FOO-1", "BAR-2"] ∧
    extractIssues false 10 ("see https://x/FOO-1 and BAR-2".data) = ["BAR-2"] :=
  url_filter_retains_nonurl ("see https://x/FOO-1 and BAR-2".data) "BAR-2"
    ["FOO-1", "BAR-2"] (by decide) (by decide)

/-- C3.  The claim states that the output preserves the order of each
key's first occurrence in the text.  In
https://u/AB-1 AB-1 CD-2 AB-1 the key AB-1 first occurs at index 10 and
CD-2 at index 20, yet the extractor returns CD-2 before AB-1: the
in-place URL filter removes the first two copies of AB-1 but skips past
CD-2, leaving the match list in the order CD-2, AB-1. -/
theorem extract_first_occurrence_cex :
    extractIssues false 10 ("https://u/AB-1 AB-1 CD-2 AB-1".data) = ["CD-2", "AB-1"] ∧
    firstOccIdx ("https://u/AB-1 AB-1 CD-2 AB-1".data) ("AB-1".data) = some 10 ∧
    firstOccIdx ("https://u/AB-1 AB-1 CD-2 AB-1".data) ("CD-2".data) = some 20 := by
  decide

/-- C3 (amended).  The extractor's output never contains duplicates and
never exceeds the configured maximum; whenever the URL filter does not
run (respond-to-URLs true, or no http(s):// in the text) the output is
the first-occurrence deduplication of the in-order match list truncated
to the maximum, hence preserves first-occurrence order; when the URL
filter runs, the output follows the order of the filtered match list,
which the in-place removal can reorder relative to the text. -/
theorem extract_nodup_bounded (r : Bool) (N : Nat) (text : List Char) :
    (extractIssues r N text).Nodup ∧
    (extractIssues r N text).length ≤ N ∧
    ((r = true ∨ containsHttp text = false) →
      extractIssues r N text = (dedupFirst (scanIssues false text)).take N) := by
  refine ⟨?_, ?_, ?_⟩
  · simp only [extractIssues]
    repeat' split
    all_goals
      first
      | exact List.nodup_nil
      | exact List.Nodup.sublist (List.take_sublist _ _) (dedupFirst_nodup _)
      | exact dedupFirst_nodup _
  · simp only [extractIssues]
    repeat' split
    all_goals
      first
      | simp
      | omega
  · intro h
    have hb : (!r && containsHttp text) = false := by
      rcases h with h | h
      · rw [h]
        simp
      · rw [h]
        simp
    by_cases hm : (scanIssues false text).isEmpty
    · have hnil : scanIssues false text = [] := List.isEmpty_iff.mp hm
      simp [extractIssues, hb, hnil, dedupFirst, dedupFirstAux]
    · simp only [extractIssues, hb, Bool.false_eq_true, if_false]
      simp only [List.isEmpty_eq_true] at hm
      simp only [List.isEmpty_eq_true, if_neg hm]
      split
      · rfl
      · rename_i hN
        exact (List.take_of_length_le (by omega)).symm

/-- Witness for C3 (amended) with respond-to-URLs true and a duplicate
key in the text. -/
theorem extract_nodup_bounded_witness :
    (extractIssues true 2 ("AB-1 CD-2 AB-1".data)).Nodup ∧
    (extractIssues true 2 ("AB-1 CD-2 AB-1".data)).length ≤ 2 ∧
    extractIssues true 2 ("AB-1 CD-2 AB-1".data) =
      (dedupFirst (scanIssues false ("AB-1 CD-2 AB-1".data))).take 2 :=
  ⟨(extract_nodup_bounded true 2 ("AB-1 CD-2 AB-1".data)).1,
   (extract_nodup_bounded true 2 ("AB-1 CD-2 AB-1".data)).2.1,
   (extract_nodup_bounded true 2 ("AB-1 CD-2 AB-1".data)).2.2 (Or.inl rfl)⟩

/-- C4.  A failing single-issue lookup (non-200 status, parse failure, or
transport exception) yields none, so it contributes no line and no error
text to the reply, while the other issues of the same message are still
processed: with the first of two candidates failing, the reply buffer is
exactly whatever the second fetch returns. -/
theorem fetch_failure_isolated (cfg : PluginConfig) (projects : List String)
    (fetch : String → Option String) (now : Int) (k1 k2 : String) (st : Nat)
    (sm : Option String)
    (h1 : projects.contains (projectKey k1) = true)
    (h2 : projects.contains (projectKey k2) = true)
    (hne : k1 ≠ k2) (hf : fetch k1 = none) (hst : st ≠ 200) :
    fetchIssueInfo cfg k1 (HttpOutcome.ok st sm) = none ∧
    fetchIssueInfo cfg k1 HttpOutcome.netError = none ∧
    (processIssueList projects cfg.issueCooldown fetch now [k1, k2] []).1 =
      (fetch k2).toList := by
  refine ⟨by simp [fetchIssueInfo, hst], rfl, ?_⟩
  have h1m : projectKey k1 ∈ projects := by simpa using h1
  have h2m : projectKey k2 ∈ projects := by simpa using h2
  have hcm1 : checkAndMark k1 now cfg.issueCooldown [] = (false, [(k1, now)]) := by
    simp [checkAndMark, purgeExpired]
  have hcm2 : checkAndMark k2 now cfg.issueCooldown [(k1, now)] =
      (false, [(k1, now), (k2, now)]) := by
    have hkeep : ¬ (now - now > (cfg.issueCooldown : Int)) := by omega
    have hb : (k1 == k2) = false := beq_eq_false_iff_ne.mpr hne
    simp [checkAndMark, purgeExpired, hkeep, hb]
  cases hf2 : fetch k2 with
  | none => simp [processIssueList, h1m, h2m, hcm1, hcm2, hf, hf2]
  | some v => simp [processIssueList, h1m, h2m, hcm1, hcm2, hf, hf2]

/-- Witness for C4: the lookup of AB-1 fails in all three ways while
CD-2 still resolves. -/
theorem fetch_failure_isolated_witness :
    fetchIssueInfo demoConfig "AB-1" (HttpOutcome.ok 404 none) = none ∧
    fetchIssueInfo demoConfig "AB-1" HttpOutcome.netError = none ∧
    (processIssueList ["AB", "CD"] demoConfig.issueCooldown oneKeyFetch 0
        ["AB-1", "CD-2"] []).1 = (oneKeyFetch "CD-2").toList :=
  fetch_failure_isolated demoConfig ["AB", "CD"] oneKeyFetch 0 "AB-1" "CD-2" 404
    none (by decide) (by decide) (by decide) (by decide) (by decide)

/-- C5.  A successful refresh replaces the project list wholesale and the
administrator reply reports the new count; a non-200 response, a
malformed body, or a transport error leaves the previous list untouched
and reports failure. -/
theorem project_refresh_atomic (old keys : List String) (st : Nat)
    (mb : Option (List String)) (hst : st ≠ 200) :
    updateProjectsState old (ProjectsOutcome.ok 200 (some keys)) = (true, keys) ∧
    (updateProjectsReply old (ProjectsOutcome.ok 200 (some keys))).2 =
      "Successfully updated projects list. Found " ++ toString keys.length ++
        " projects." ∧
    updateProjectsState old (ProjectsOutcome.ok st mb) = (false, old) ∧
    updateProjectsState old (ProjectsOutcome.ok 200 none) = (false, old) ∧
    updateProjectsState old ProjectsOutcome.netError = (false, old) := by
  refine ⟨rfl, rfl, ?_, rfl, rfl⟩
  simp [updateProjectsState, hst]

/-- Witness for C5 with a two-project fetch and a 500 failure. -/
theorem project_refresh_atomic_witness :
    updateProjectsState ["X"] (ProjectsOutcome.ok 200 (some ["AB", "CD"])) =
      (true, ["AB", "CD"]) ∧
    (updateProjectsReply ["X"] (ProjectsOutcome.ok 200 (some ["AB", "CD"]))).2 =
      "Successfully updated projects list. Found " ++
        toString (["AB", "CD"].length) ++ " projects." ∧
    updateProjectsState ["X"] (ProjectsOutcome.ok 500 none) = (false, ["X"]) ∧
    updateProjectsState ["X"] (ProjectsOutcome.ok 200 none) = (false, ["X"]) ∧
    updateProjectsState ["X"] ProjectsOutcome.netError = (false, ["X"]) :=
  project_refresh_atomic ["X"] ["AB", "CD"] 500 none (by decide)

/-- C6.  Each resolved issue formats as key colon title, or as a
markdown link to the browse URL when the include-URL flag is set; the
reply is the lines joined with newlines, each prefixed with the
off-topic marker when the original body starts with it
(case-insensitively). -/
theorem reply_formatting (cfg : PluginConfig) (body : String)
    (resolved : List (String × String)) (hne : resolved ≠ []) :
    (∀ kt ∈ resolved,
      fetchIssueInfo cfg kt.1 (HttpOutcome.ok 200 (some kt.2)) =
        some (issueLine cfg kt.1 kt.2)) ∧
    formatReply body (resolved.map (fun kt => issueLine cfg kt.1 kt.2)) =
      some (joinLines
        (if offMarker body then
          (resolved.map (fun kt => issueLine cfg kt.1 kt.2)).map
            (fun s => "[off] " ++ s)
         else resolved.map (fun kt => issueLine cfg kt.1 kt.2))) := by
  constructor
  · intro kt _
    rfl
  · have hne2 : (resolved.map (fun kt => issueLine cfg kt.1 kt.2)).isEmpty = false := by
      cases resolved with
      | nil => exact absurd rfl hne
      | cons a t => rfl
    by_cases hoff : offMarker body
    · simp [formatReply, hne2, hoff]
    · simp [formatReply, hne2, hoff]

/-- Witness for C6 on the spec's end-to-end example, with markdown links
enabled. -/
theorem reply_formatting_witness :
    (∀ kt ∈ [("JIRA-42", "Fix login bug")],
      fetchIssueInfo demoConfigUrl kt.1 (HttpOutcome.ok 200 (some kt.2)) =
        some (issueLine demoConfigUrl kt.1 kt.2)) ∧
    formatReply "Check JIRA-42 please"
        ([("JIRA-42", "Fix login bug")].map
          (fun kt => issueLine demoConfigUrl kt.1 kt.2)) =
      some (joinLines
        (if offMarker "Check JIRA-42 please" then
          ([("JIRA-42", "Fix login bug")].map
            (fun kt => issueLine demoConfigUrl kt.1 kt.2)).map
              (fun s => "[off] " ++ s)
         else
          [("JIRA-42", "Fix login bug")].map
            (fun kt => issueLine demoConfigUrl kt.1 kt.2))) :=
  reply_formatting demoConfigUrl "Check JIRA-42 please"
    [("JIRA-42", "Fix login bug")] (by decide)

/-- C7.  A message that is not plain text, whose sender's local part is
on the trimmed ignored-user list, or whose sender is the plugin's own
identity is rejected before any processing: the handler returns no reply
and leaves the cooldown ledger unchanged, for every fetch oracle. -/
theorem early_reject_no_processing (projects : List String) (cfg : PluginConfig)
    (ownId : String) (fetch : String → Option String) (now : Int)
    (ledger : List (String × Int)) (evt : MessageEvt)
    (h : evt.msgtype ≠ MsgType.text ∨
         isIgnoredUser cfg.ignoredUsers evt.sender = true ∨ evt.sender = ownId) :
    onMessage projects cfg ownId fetch now ledger evt = (none, ledger) := by
  rcases h with h | h | h
  · simp [onMessage, h]
  · simp [onMessage, h]
  · simp [onMessage, h]

/-- Witness for C7 with an ignored sender whose message contains a
candidate key. -/
theorem early_reject_no_processing_witness :
    onMessage [] demoConfig "@bot:example.com" noFetch 0 []
      { msgtype := MsgType.text, sender := "@alice:example.com", body := "AB-1" } =
      (none, []) :=
  early_reject_no_processing [] demoConfig "@bot:example.com" noFetch 0 []
    { msgtype := MsgType.text, sender := "@alice:example.com", body := "AB-1" }
    (Or.inr (Or.inl (by decide)))

/-- C8.  When the only extracted candidate has a project prefix outside
the project directory (in particular when the directory is empty after a
failed startup refresh), the pipeline makes no fetch, emits no reply,
and leaves the ledger unchanged, for every fetch oracle. -/
theorem unknown_project_silent (projects : List String) (cfg : PluginConfig)
    (fetch : String → Option String) (now : Int) (ledger : List (String × Int))
    (body k : String)
    (hx : extractIssues cfg.respondToUrls cfg.maxIssuesPerMessage body.data = [k])
    (hk : projects.contains (projectKey k) = false) :
    processMessageForIssues projects cfg fetch now ledger body = (none, ledger) := by
  have hkm : projectKey k ∉ projects := by simpa using hk
  simp [processMessageForIssues, hx, processIssueList, hk, hkm, formatReply]

/-- Witness for C8 on the spec's example key ZZZ-9 with an empty project
directory. -/
theorem unknown_project_silent_witness :
    processMessageForIssues [] demoConfig noFetch 0 [] "ZZZ-9" = (none, []) :=
  unknown_project_silent [] demoConfig noFetch 0 [] "ZZZ-9" "ZZZ-9" (by decide)
    (by decide)
